import Mathlib

/-!
Verification of the Makoto Rust SDK core (hashing, signing, verification
modules) against its natural-language specification.

The development shallowly embeds the functions of
`src/sdks/rust/src/hash.rs`, `src/sdks/rust/src/signing.rs`,
`src/sdks/rust/src/verification.rs`, `src/sdks/rust/src/error.rs` and the
attestation types of `src/sdks/rust/src/types/`.  Cryptographic primitives
(SHA-256 compression, ECDSA P-256, base64) are external crates; they are
modelled as parameters of the embedding, so every theorem about tree or
envelope structure holds for an arbitrary instantiation of those primitives,
and witnesses instantiate them with small concrete functions.
-/

namespace Makoto

/-- Error taxonomy of `src/error.rs` (`MakotoError`).  Each constructor keeps
the payload that the Rust enum carries; the IO variant wraps a host OS error
and is modelled by its display string. -/
inductive MakotoError where
  | Json : String → MakotoError
  | Signature : String → MakotoError
  | HashMismatch : String → String → MakotoError
  | InvalidAttestation : String → MakotoError
  | MissingField : String → MakotoError
  | InvalidPredicateType : String → String → MakotoError
  | KeyError : String → MakotoError
  | MerkleError : String → MakotoError
  | ChainError : String → MakotoError
  | IoError : String → MakotoError
deriving Repr, DecidableEq

/-- Display rendering of `MakotoError`, from the `thiserror` format strings in
`src/error.rs`. -/
def MakotoError.message : MakotoError → String
  | .Json m => "JSON error: " ++ m
  | .Signature m => "Signature error: " ++ m
  | .HashMismatch expected actual =>
      "Hash verification failed: expected " ++ expected ++ ", got " ++ actual
  | .InvalidAttestation m => "Invalid attestation: " ++ m
  | .MissingField m => "Missing required field: " ++ m
  | .InvalidPredicateType expected actual =>
      "Invalid predicate type: expected " ++ expected ++ ", got " ++ actual
  | .KeyError m => "Key error: " ++ m
  | .MerkleError m => "Merkle tree error: " ++ m
  | .ChainError m => "Chain verification error: " ++ m
  | .IoError m => "IO error: " ++ m

/-- Hash algorithm tag (`src/types/`, `HashAlgorithm`); the SDK only ever
constructs `sha256`. -/
inductive HashAlgorithm where
  | sha256
deriving Repr, DecidableEq

section Merkle

variable {α : Type}

/-- Position of a sibling node in a Merkle proof (`SiblingPosition` in
`src/hash.rs`). -/
inductive SiblingPosition where
  | left
  | right
deriving Repr, DecidableEq

/-- A Merkle tree (`MerkleTree` in `src/hash.rs`): leaf hashes, the levels
from leaves to root, and the hash algorithm.  Digests (`[u8; 32]` in Rust)
are an abstract type `α`; the pair hash `hash_pair` is the parameter `H`. -/
structure MerkleTree (α : Type) where
  leaves : List α
  levels : List (List α)
  algorithm : HashAlgorithm

/-- A Merkle inclusion proof (`MerkleProof` in `src/hash.rs`). -/
structure MerkleProof (α : Type) where
  leaf_index : Nat
  leaf_hash : α
  siblings : List α
  positions : List SiblingPosition

variable (H : α → α → α)

/-- One parent level of the bottom-up construction: the body of the
`for chunk in current_level.chunks(2)` loop in `MerkleTree::from_leaf_hashes`
(`src/hash.rs` lines 63-78).  A full chunk hashes the pair, a trailing odd
chunk hashes the last node with itself. -/
def next_level : List α → List α
  | a :: b :: rest => H a b :: next_level rest
  | [a] => [H a a]
  | [] => []

/-- Each construction level halves the node count, rounding up. -/
theorem next_level_length : ∀ l : List α, (next_level H l).length = (l.length + 1) / 2
  | [] => by simp [next_level]
  | [a] => by simp [next_level]
  | a :: b :: rest => by
      simp only [next_level, List.length_cons, next_level_length rest]
      omega

/-- The `while current_level.len() > 1` loop of `MerkleTree::from_leaf_hashes`
(`src/hash.rs` lines 59-81): collect every level bottom-up, the last pushed
level being the root level. -/
def build_levels (cur : List α) : List (List α) :=
  if cur.length ≤ 1 then [cur]
  else cur :: build_levels (next_level H cur)
termination_by cur.length
decreasing_by
  simp only [next_level_length]
  omega

/-- Constructor `MerkleTree::from_leaf_hashes` (`src/hash.rs` lines 50-88). -/
def MerkleTree.from_leaf_hashes (leaf_hashes : List α) : MerkleTree α :=
  if leaf_hashes.isEmpty then ⟨[], [], HashAlgorithm.sha256⟩
  else ⟨leaf_hashes, build_levels H leaf_hashes, HashAlgorithm.sha256⟩

/-- `MerkleTree::root` (`src/hash.rs` lines 91-93): first node of the last
level, when present. -/
def MerkleTree.root (t : MerkleTree α) : Option α :=
  t.levels.getLast?.bind List.head?

/-- `MerkleTree::leaf_count` (`src/hash.rs`). -/
def MerkleTree.leaf_count (t : MerkleTree α) : Nat :=
  t.leaves.length

/-- `MerkleTree.height` (`src/hash.rs`): number of levels. -/
def MerkleTree.height (t : MerkleTree α) : Nat :=
  t.levels.length

/-- Body of the per-level step of `MerkleTree::proof` (`src/hash.rs` lines
129-146): locate the sibling (`index+1` when even, `index-1` when odd); when
that index is outside the level the node is its own sibling, recorded on the
right. -/
def sibling_entry [Inhabited α] (level : List α) (index : Nat) : α × SiblingPosition :=
  let sibling_index := if index % 2 == 0 then index + 1 else index - 1
  if sibling_index < level.length then
    (level.getD sibling_index default,
     if index % 2 == 0 then SiblingPosition.right else SiblingPosition.left)
  else
    (level.getD index default, SiblingPosition.right)

/-- The `for level in &self.levels[..len-1]` walk of `MerkleTree::proof`,
collecting the (sibling, position) pairs while halving the index. -/
def proof_steps [Inhabited α] : List (List α) → Nat → List (α × SiblingPosition)
  | [], _ => []
  | level :: rest, index => sibling_entry level index :: proof_steps rest (index / 2)

/-- `MerkleTree::proof` (`src/hash.rs` lines 116-154): out-of-range indices
fail with `MerkleError`; otherwise collect siblings and positions from every
level below the root. -/
def MerkleTree.proof [Inhabited α] (t : MerkleTree α) (leaf_index : Nat) :
    Except MakotoError (MerkleProof α) :=
  if leaf_index ≥ t.leaves.length then
    Except.error (MakotoError.MerkleError
      ("Leaf index " ++ toString leaf_index ++ " out of bounds (tree has " ++
        toString t.leaves.length ++ " leaves)"))
  else
    let steps := proof_steps (t.levels.take (t.levels.length - 1)) leaf_index
    Except.ok
      { leaf_index := leaf_index
        leaf_hash := t.leaves.getD leaf_index default
        siblings := steps.map Prod.fst
        positions := steps.map Prod.snd }

/-- The loop body of `MerkleProof::compute_root` (`src/hash.rs` lines
188-193): a `left` sibling is hashed in front of the accumulator, a `right`
sibling behind it. -/
def fold_step (current : α) (sp : α × SiblingPosition) : α :=
  match sp.2 with
  | SiblingPosition.left => H sp.1 current
  | SiblingPosition.right => H current sp.1

/-- `MerkleProof::compute_root` (`src/hash.rs` lines 185-196): fold the
zipped (sibling, position) pairs over the leaf hash. -/
def MerkleProof.compute_root (p : MerkleProof α) : α :=
  (p.siblings.zip p.positions).foldl (fold_step H) p.leaf_hash

/-- `MerkleTree::verify_proof` (`src/hash.rs` lines 157-160). -/
def MerkleTree.verify_proof [DecidableEq α] (t : MerkleTree α) (p : MerkleProof α) : Bool :=
  t.root == some (MerkleProof.compute_root H p)

/-- `MerkleProof::verify` (`src/hash.rs` lines 199-201): standalone check
against an expected root. -/
def MerkleProof.verify [DecidableEq α] (p : MerkleProof α) (expected_root : α) : Bool :=
  MerkleProof.compute_root H p == expected_root

end Merkle

section Signing

/-- One entry of an envelope signature list (`AttestationSignature` in
`src/signing.rs`): a key identifier and a base64-encoded signature. -/
structure AttestationSignature where
  keyid : String
  sig : String
deriving Repr, DecidableEq

/-- A DSSE signed envelope (`SignedAttestation` in `src/signing.rs`). -/
structure SignedAttestation where
  payload_type : String
  payload : String
  signatures : List AttestationSignature
deriving Repr, DecidableEq

/-- The DSSE pre-authentication encoding built in `SignedAttestation::sign`
and `SignedAttestation::verify` (`src/signing.rs` lines 35-38 and 66):
`format ("DSSEv1 " payloadType " " payload)`.  Byte strings are modelled by
`String`; UTF-8 encoding is injective, so signing the string stands for
signing its bytes. -/
def pae (payload_type payload : String) : String :=
  "DSSEv1 " ++ payload_type ++ " " ++ payload

variable {SigT VKey : Type}

/- Crypto primitives from external crates, as parameters of the embedding:
`BASE64.decode` over signature strings, `p256::ecdsa::Signature::from_slice`,
and the raw p256 verification `VerifyingKey::verify` (which returns a unit
result or an opaque error). -/
variable (b64decode : String → Option (List Nat))
variable (sigFromSlice : List Nat → Option SigT)
variable (p256verify : VKey → String → SigT → Except String Unit)

/-- `MakotoVerifier` (`src/signing.rs`): a public key plus its derived key
identifier. -/
structure MakotoVerifier (VKey : Type) where
  verifying_key : VKey
  key_id : String

/-- `MakotoVerifier::verify` (`src/signing.rs` lines 217-222): maps the raw
p256 result to `Ok(true)` / `Ok(false)`; it never produces an error. -/
def MakotoVerifier.verify (v : MakotoVerifier VKey) (data : String) (s : SigT) :
    Except MakotoError Bool :=
  match p256verify v.verifying_key data s with
  | Except.ok _ => Except.ok true
  | Except.error _ => Except.ok false

/-- The `for sig in &self.signatures` loop of `SignedAttestation::verify`
(`src/signing.rs` lines 69-87), with the `found_matching_key` flag threaded
through: matching entries are base64-decoded and parsed (a failure raises the
`Signature` error), then checked against the PAE; a failed check returns
`Ok(false)` immediately, and the loop ends with `Ok(found_matching_key)`. -/
def verify_signatures_loop (v : MakotoVerifier VKey) (paeStr : String) :
    List AttestationSignature → Bool → Except MakotoError Bool
  | [], found_matching_key => Except.ok found_matching_key
  | s :: rest, found_matching_key =>
    if s.keyid == v.key_id then
      match b64decode s.sig with
      | none => Except.error (MakotoError.Signature "Invalid signature base64")
      | some sig_bytes =>
        match sigFromSlice sig_bytes with
        | none => Except.error (MakotoError.Signature "Invalid signature format")
        | some sg =>
          match MakotoVerifier.verify p256verify v paeStr sg with
          | Except.ok b =>
            if b then verify_signatures_loop v paeStr rest true
            else Except.ok false
          | Except.error e => Except.error e
    else verify_signatures_loop v paeStr rest found_matching_key

/-- `SignedAttestation::verify` (`src/signing.rs` lines 65-88): rebuild the
PAE from the envelope's own fields and scan the signature list. -/
def SignedAttestation.verify (env : SignedAttestation) (v : MakotoVerifier VKey) :
    Except MakotoError Bool :=
  verify_signatures_loop b64decode sigFromSlice p256verify v
    (pae env.payload_type env.payload) env.signatures false

/-- A matching signature entry decodes: its base64 and byte format both
parse.  This is the hypothesis under which `SignedAttestation::verify` stays
on the boolean path. -/
def entry_decodes (s : AttestationSignature) : Prop :=
  ∃ bytes sg, b64decode s.sig = some bytes ∧ sigFromSlice bytes = some sg

/-- A signature entry cryptographically verifies over the PAE bytes: it
decodes and the raw p256 check succeeds. -/
def entry_verifies (v : MakotoVerifier VKey) (paeStr : String)
    (s : AttestationSignature) : Prop :=
  ∃ bytes sg, b64decode s.sig = some bytes ∧ sigFromSlice bytes = some sg ∧
    p256verify v.verifying_key paeStr sg = Except.ok ()

end Signing

section Keys

variable {SKey VKey : Type}

/- Key primitives from the p256 crate, as parameters: derive the public key
of a private key, uncompressed SEC1 point encoding, hex SHA-256 of a byte
string, private-key parsing (`SigningKey::from_slice`) and export
(`to_bytes`), and public-key parsing (`VerifyingKey::from_sec1_bytes`). -/
variable (skVerifyingKey : SKey → VKey)
variable (toEncodedPointUncompressed : VKey → List Nat)
variable (sha256hexBytes : List Nat → String)
variable (skFromSlice : List Nat → Option SKey)
variable (skToBytes : SKey → List Nat)
variable (vkFromSec1 : List Nat → Option VKey)

/-- `compute_key_id` (`src/signing.rs` lines 234-239): hex SHA-256 of the
uncompressed public-key point, truncated to its first 16 characters. -/
def compute_key_id (k : VKey) : String :=
  (sha256hexBytes (toEncodedPointUncompressed k)).take 16

/-- `MakotoSigner` (`src/signing.rs`): private key plus derived key id. -/
structure MakotoSigner (SKey : Type) where
  signing_key : SKey
  key_id : String

/-- The common body of `MakotoSigner::generate`, `::from_pem` and
`::from_bytes`: pair a signing key with the key id computed from its
verifying key. -/
def signer_of_key (sk : SKey) : MakotoSigner SKey :=
  ⟨sk, compute_key_id toEncodedPointUncompressed sha256hexBytes (skVerifyingKey sk)⟩

/-- `MakotoSigner::from_bytes` (`src/signing.rs` lines 137-147). -/
def MakotoSigner.from_bytes (bytes : List Nat) : Except MakotoError (MakotoSigner SKey) :=
  match skFromSlice bytes with
  | none => Except.error (MakotoError.KeyError "Invalid private key bytes")
  | some sk =>
      Except.ok (signer_of_key skVerifyingKey toEncodedPointUncompressed sha256hexBytes sk)

/-- `MakotoSigner::to_bytes` (`src/signing.rs` lines 168-170). -/
def MakotoSigner.to_bytes (s : MakotoSigner SKey) : List Nat :=
  skToBytes s.signing_key

/-- `MakotoSigner::verifying_key` (`src/signing.rs` lines 155-160): the
verifier carries the signer's public key and a clone of its key id. -/
def MakotoSigner.get_verifier (s : MakotoSigner SKey) : MakotoVerifier VKey :=
  ⟨skVerifyingKey s.signing_key, s.key_id⟩

/-- `MakotoSigner::public_key_bytes` (`src/signing.rs` lines 173-179). -/
def MakotoSigner.public_key_bytes (s : MakotoSigner SKey) : List Nat :=
  toEncodedPointUncompressed (skVerifyingKey s.signing_key)

/-- `MakotoVerifier::from_bytes` (`src/signing.rs` lines 199-209). -/
def MakotoVerifier.from_bytes (bytes : List Nat) : Except MakotoError (MakotoVerifier VKey) :=
  match vkFromSec1 bytes with
  | none => Except.error (MakotoError.KeyError "Invalid public key bytes")
  | some vk =>
      Except.ok ⟨vk, compute_key_id toEncodedPointUncompressed sha256hexBytes vk⟩

end Keys

section Attestations

/-- The in-toto Statement v1 type identifier (`src/types/common.rs`). -/
def IN_TOTO_STATEMENT_TYPE : String := "https://in-toto.io/Statement/v1"

/-- Predicate type URI for origin attestations (`src/types/origin.rs`). -/
def ORIGIN_PREDICATE_TYPE : String := "https://makoto.dev/origin/v1"

/-- Predicate type URI for transform attestations (`src/types/transform.rs`). -/
def TRANSFORM_PREDICATE_TYPE : String := "https://makoto.dev/transform/v1"

/-- Predicate type URI for stream window attestations
(`src/types/stream_window.rs`). -/
def STREAM_WINDOW_PREDICATE_TYPE : String := "https://makoto.dev/stream-window/v1"

/-- Makoto attestation levels (`src/types/common.rs`, `MakotoLevel`). -/
inductive MakotoLevel where
  | L1
  | L2
  | L3
deriving Repr, DecidableEq

/-- Cryptographic digest of data (`src/types/common.rs`, `Digest`).  The
embedding keeps the fields the verification layer consults (`sha256`) plus
the optional companions; the open `additional` map is not consulted by any
embedded function and is omitted. -/
structure Digest where
  sha256 : String
  sha512 : Option String := none
  record_count : Option String := none
  merkle_root : Option String := none
deriving Repr, DecidableEq

/-- Subject of an attestation (`src/types/common.rs`, `Subject`). -/
structure Subject where
  name : String
  digest : Digest
deriving Repr, DecidableEq

/-- Origin of collected data (`src/types/origin.rs`, `Origin`); only the
`source` field is consulted by the verification layer, the remaining fields
(source type, collection method, timestamp, geography, consent) are opaque
to it and are omitted from the embedding. -/
structure Origin where
  source : String
deriving Repr, DecidableEq

/-- Origin predicate (`src/types/origin.rs`, `OriginPredicate`); collector,
schema, metadata and compliance fields are not consulted by the verification
layer and are omitted. -/
structure OriginPredicate where
  origin : Origin
deriving Repr, DecidableEq

/-- Origin attestation (`src/types/origin.rs`, `OriginAttestation`). -/
structure OriginAttestation where
  statement_type : String
  subject : List Subject
  predicate_type : String
  predicate : OriginPredicate
deriving Repr, DecidableEq

/-- `OriginAttestation::validate` (`src/types/origin.rs` lines 36-58). -/
def OriginAttestation.validate (a : OriginAttestation) : Except MakotoError Unit :=
  if a.statement_type ≠ IN_TOTO_STATEMENT_TYPE then
    Except.error (MakotoError.InvalidAttestation
      ("Invalid statement type: expected " ++ IN_TOTO_STATEMENT_TYPE ++ ", got " ++
        a.statement_type))
  else if a.predicate_type ≠ ORIGIN_PREDICATE_TYPE then
    Except.error (MakotoError.InvalidPredicateType ORIGIN_PREDICATE_TYPE a.predicate_type)
  else if a.subject.isEmpty then
    Except.error (MakotoError.MissingField "subject")
  else
    Except.ok ()

/-- Reference to a transform input (`src/types/transform.rs`,
`InputReference`); fields beyond name and digest are not consulted by the
verification layer and are omitted. -/
structure InputReference where
  name : String
  digest : Digest
deriving Repr, DecidableEq

/-- Transform definition (`src/types/transform.rs`, `TransformDefinition`);
only the `name` field is consulted by the verification layer. -/
structure TransformDefinition where
  name : String
deriving Repr, DecidableEq

/-- Transform predicate (`src/types/transform.rs`, `TransformPredicate`);
executor, metadata and verification info are not consulted by the
verification layer and are omitted. -/
structure TransformPredicate where
  inputs : List InputReference
  transform : TransformDefinition
deriving Repr, DecidableEq

/-- Transform attestation (`src/types/transform.rs`,
`TransformAttestation`). -/
structure TransformAttestation where
  statement_type : String
  subject : List Subject
  predicate_type : String
  predicate : TransformPredicate
deriving Repr, DecidableEq

/-- `TransformAttestation::validate` (`src/types/transform.rs` lines
36-64). -/
def TransformAttestation.validate (a : TransformAttestation) : Except MakotoError Unit :=
  if a.statement_type ≠ IN_TOTO_STATEMENT_TYPE then
    Except.error (MakotoError.InvalidAttestation
      ("Invalid statement type: expected " ++ IN_TOTO_STATEMENT_TYPE ++ ", got " ++
        a.statement_type))
  else if a.predicate_type ≠ TRANSFORM_PREDICATE_TYPE then
    Except.error (MakotoError.InvalidPredicateType TRANSFORM_PREDICATE_TYPE a.predicate_type)
  else if a.subject.isEmpty then
    Except.error (MakotoError.MissingField "subject")
  else if a.predicate.inputs.isEmpty then
    Except.error (MakotoError.MissingField "inputs")
  else
    Except.ok ()

/-- Merkle tree parameters of a stream window
(`src/types/stream_window.rs`, `MerkleTreeDescriptor`). -/
structure MerkleTreeDescriptor where
  algorithm : HashAlgorithm
  leaf_hash_algorithm : Option HashAlgorithm := none
  leaf_count : Nat
  tree_height : Option Nat := none
  root : String
deriving Repr, DecidableEq

/-- Hash chain back-reference (`src/types/stream_window.rs`,
`ChainDescriptor`). -/
structure ChainDescriptor where
  previous_window_id : Option String := none
  previous_merkle_root : Option String := none
  chain_length : Option Nat := none
  genesis_window_id : Option String := none
deriving Repr, DecidableEq

/-- Integrity descriptor of a stream window (`src/types/stream_window.rs`,
`IntegrityDescriptor`). -/
structure IntegrityDescriptor where
  merkle_tree : MerkleTreeDescriptor
  chain : Option ChainDescriptor := none
deriving Repr, DecidableEq

/-- Stream window predicate (`src/types/stream_window.rs`,
`StreamWindowPredicate`); stream and window descriptors, aggregates,
collector, metadata and verification info are not consulted by the
verification layer and are omitted. -/
structure StreamWindowPredicate where
  integrity : IntegrityDescriptor
deriving Repr, DecidableEq

/-- Stream window attestation (`src/types/stream_window.rs`,
`StreamWindowAttestation`). -/
structure StreamWindowAttestation where
  statement_type : String
  subject : List Subject
  predicate_type : String
  predicate : StreamWindowPredicate
deriving Repr, DecidableEq

/-- `StreamWindowAttestation::validate` (`src/types/stream_window.rs` lines
36-58). -/
def StreamWindowAttestation.validate (a : StreamWindowAttestation) :
    Except MakotoError Unit :=
  if a.statement_type ≠ IN_TOTO_STATEMENT_TYPE then
    Except.error (MakotoError.InvalidAttestation
      ("Invalid statement type: expected " ++ IN_TOTO_STATEMENT_TYPE ++ ", got " ++
        a.statement_type))
  else if a.predicate_type ≠ STREAM_WINDOW_PREDICATE_TYPE then
    Except.error (MakotoError.InvalidPredicateType STREAM_WINDOW_PREDICATE_TYPE
      a.predicate_type)
  else if a.subject.isEmpty then
    Except.error (MakotoError.MissingField "subject")
  else
    Except.ok ()

end Attestations

section StructuralVerification

/-- Result of attestation verification (`src/verification.rs`,
`VerificationResult`). -/
structure VerificationResult where
  valid : Bool
  level : Option MakotoLevel
  messages : List String
  warnings : List String
deriving Repr, DecidableEq

/-- `VerificationResult::pass` (`src/verification.rs` lines 28-35). -/
def VerificationResult.pass (level : MakotoLevel) : VerificationResult :=
  ⟨true, some level, [], []⟩

/-- `VerificationResult::fail` (`src/verification.rs` lines 38-45). -/
def VerificationResult.fail (message : String) : VerificationResult :=
  ⟨false, none, [message], []⟩

/-- `VerificationResult::with_message` (`src/verification.rs` lines 48-51). -/
def VerificationResult.with_message (r : VerificationResult) (msg : String) :
    VerificationResult :=
  { r with messages := r.messages ++ [msg] }

/-- The subject-digest loop of `verify_origin_structure` and
`verify_transform_structure` (`src/verification.rs` lines 95-103 and
136-144): the first subject whose primary sha256 string is not 64 characters
long, if any. -/
def first_bad_subject : List Subject → Option Subject
  | [] => none
  | s :: rest =>
    if s.digest.sha256.length ≠ 64 then some s else first_bad_subject rest

/-- The input-digest loop of `verify_transform_structure`
(`src/verification.rs` lines 126-134). -/
def first_bad_input : List InputReference → Option InputReference
  | [] => none
  | i :: rest =>
    if i.digest.sha256.length ≠ 64 then some i else first_bad_input rest

/-- `verify_origin_structure` (`src/verification.rs` lines 80-107). -/
def verify_origin_structure (a : OriginAttestation) : VerificationResult :=
  match a.validate with
  | Except.error e =>
      VerificationResult.fail ("Structure validation failed: " ++ e.message)
  | Except.ok _ =>
    if a.predicate.origin.source.isEmpty then
      VerificationResult.fail "Origin source is empty"
    else if a.subject.isEmpty then
      VerificationResult.fail "No subjects in attestation"
    else
      match first_bad_subject a.subject with
      | some s =>
          VerificationResult.fail
            ("Invalid SHA-256 hash length for subject '" ++ s.name ++
              "': expected 64, got " ++ toString s.digest.sha256.length)
      | none =>
          (VerificationResult.pass MakotoLevel.L1).with_message
            "Origin attestation structure is valid"

/-- `verify_transform_structure` (`src/verification.rs` lines 110-148). -/
def verify_transform_structure (a : TransformAttestation) : VerificationResult :=
  match a.validate with
  | Except.error e =>
      VerificationResult.fail ("Structure validation failed: " ++ e.message)
  | Except.ok _ =>
    if a.predicate.inputs.isEmpty then
      VerificationResult.fail "No inputs in transform attestation"
    else if a.predicate.transform.name.isEmpty then
      VerificationResult.fail "Transform name is empty"
    else
      match first_bad_input a.predicate.inputs with
      | some i =>
          VerificationResult.fail
            ("Invalid SHA-256 hash length for input '" ++ i.name ++
              "': expected 64, got " ++ toString i.digest.sha256.length)
      | none =>
        match first_bad_subject a.subject with
        | some s =>
            VerificationResult.fail
              ("Invalid SHA-256 hash length for subject '" ++ s.name ++
                "': expected 64, got " ++ toString s.digest.sha256.length)
        | none =>
            (VerificationResult.pass MakotoLevel.L1).with_message
              "Transform attestation structure is valid"

/-- `verify_stream_window_structure` (`src/verification.rs` lines 151-191).
The Rust `if let` chain falls through to the passing result when the chain
back-reference is absent or incomplete; the fall-through is rendered by
repeating the passing result in those branches. -/
def verify_stream_window_structure (a : StreamWindowAttestation) :
    VerificationResult :=
  match a.validate with
  | Except.error e =>
      VerificationResult.fail ("Structure validation failed: " ++ e.message)
  | Except.ok _ =>
    let merkle := a.predicate.integrity.merkle_tree
    if merkle.root.length ≠ 64 then
      VerificationResult.fail
        ("Invalid Merkle root length: expected 64, got " ++ toString merkle.root.length)
    else if merkle.leaf_count = 0 then
      VerificationResult.fail "Merkle tree has no leaves"
    else
      match a.predicate.integrity.chain with
      | some chain =>
        match chain.previous_window_id, chain.previous_merkle_root with
        | some prev_id, some prev_root =>
          if prev_root.length ≠ 64 then
            VerificationResult.fail
              ("Invalid previous Merkle root length: expected 64, got " ++
                toString prev_root.length)
          else if prev_id.isEmpty then
            VerificationResult.fail "Previous window ID is empty"
          else
            (VerificationResult.pass MakotoLevel.L1).with_message
              "Stream window attestation structure is valid"
        | _, _ =>
            (VerificationResult.pass MakotoLevel.L1).with_message
              "Stream window attestation structure is valid"
      | none =>
          (VerificationResult.pass MakotoLevel.L1).with_message
            "Stream window attestation structure is valid"

end StructuralVerification

/-- Concrete pair-hash over `Nat` used to instantiate the abstract digest
parameters in witnesses. -/
def tHash (a b : Nat) : Nat := 2 * a + 3 * b + 1

/-- Concrete base64 decoder for witnesses: always succeeds. -/
def tB64 (s : String) : Option (List Nat) := some [s.length]

/-- Concrete base64 decoder for witnesses: always fails. -/
def tB64fail (_s : String) : Option (List Nat) := none

/-- Concrete signature parser for witnesses. -/
def tSigParse (_l : List Nat) : Option Unit := some ()

/-- Concrete raw verification for witnesses: always accepts. -/
def tP256ok (_k : Unit) (_data : String) (_sg : Unit) : Except String Unit := Except.ok ()

/-- Concrete public-key derivation for witnesses. -/
def tSkVk (n : Nat) : Nat := n + 1

/-- Concrete uncompressed-point encoding for witnesses. -/
def tPoint (n : Nat) : List Nat := [n]

/-- Concrete hex digest for witnesses. -/
def tShaHex (l : List Nat) : String := toString (l.headD 0)

/-- Concrete key parser for witnesses. -/
def tParse (l : List Nat) : Option Nat := l.head?

/-- A 64-character hex-like string for witnesses. -/
def hex64 : String := String.mk (List.replicate 64 'a')

/-- Witness subject with a 64-character digest. -/
def tSubjGood : Subject := ⟨"s", ⟨hex64, none, none, none⟩⟩

/-- Witness subject with a 2-character digest. -/
def tSubjBad : Subject := ⟨"s", ⟨"ab", none, none, none⟩⟩

/-- Well-formed witness origin attestation. -/
def tOriginGood : OriginAttestation :=
  ⟨IN_TOTO_STATEMENT_TYPE, [tSubjGood], ORIGIN_PREDICATE_TYPE, ⟨⟨"src"⟩⟩⟩

/-- Witness origin attestation with a bad digest length. -/
def tOriginBad : OriginAttestation :=
  ⟨IN_TOTO_STATEMENT_TYPE, [tSubjBad], ORIGIN_PREDICATE_TYPE, ⟨⟨"src"⟩⟩⟩

/-- Well-formed witness transform attestation. -/
def tTransformGood : TransformAttestation :=
  ⟨IN_TOTO_STATEMENT_TYPE, [tSubjGood], TRANSFORM_PREDICATE_TYPE,
    ⟨[⟨"i", ⟨hex64, none, none, none⟩⟩], ⟨"t"⟩⟩⟩

/-- Witness transform attestation with a bad input digest length. -/
def tTransformBad : TransformAttestation :=
  ⟨IN_TOTO_STATEMENT_TYPE, [tSubjGood], TRANSFORM_PREDICATE_TYPE,
    ⟨[⟨"i", ⟨"ab", none, none, none⟩⟩], ⟨"t"⟩⟩⟩

/-- Well-formed witness stream window attestation with a chain link. -/
def tStreamGood : StreamWindowAttestation :=
  ⟨IN_TOTO_STATEMENT_TYPE, [tSubjGood], STREAM_WINDOW_PREDICATE_TYPE,
    ⟨⟨⟨HashAlgorithm.sha256, none, 3, none, hex64⟩,
      some ⟨some "w1", some hex64, none, none⟩⟩⟩⟩


section MerkleTheorems

variable {α : Type} (H : α → α → α)

/-- A construction level of a non-empty list is non-empty. -/
theorem next_level_ne_nil (l : List α) (h : l ≠ []) : next_level H l ≠ [] := by
  have hl := next_level_length H l
  intro hc
  rw [hc] at hl
  simp only [List.length_nil] at hl
  have h0 : l.length = 0 := by omega
  exact h (List.length_eq_zero.mp h0)

/-- The level list of the construction loop is never empty. -/
theorem build_levels_ne_nil (cur : List α) : build_levels H cur ≠ [] := by
  unfold build_levels
  split <;> simp

/-- Dropping a complete leading pair shifts the sibling lookup by two. -/
theorem sibling_entry_cons_cons [Inhabited α] (a b : α) (rest : List α) (n : Nat)
    (h : n < rest.length) :
    sibling_entry (a :: b :: rest) (n + 2) = sibling_entry rest n := by
  unfold sibling_entry
  rcases Nat.mod_two_eq_zero_or_one n with h2 | h2
  · have h2' : (n + 2) % 2 = 0 := by omega
    simp only [h2, h2', beq_self_eq_true, if_true, List.length_cons]
    have h3 : n + 2 + 1 = (n + 1) + 1 + 1 := by omega
    rw [h3]
    simp only [List.getD_cons_succ]
    by_cases hlt : n + 1 < rest.length
    · rw [if_pos (by omega : n + 1 + 1 + 1 < rest.length + 1 + 1), if_pos hlt]
    · rw [if_neg (by omega : ¬ (n + 1 + 1 + 1 < rest.length + 1 + 1)), if_neg hlt]
  · have h2' : (n + 2) % 2 = 1 := by omega
    have hn1 : 1 ≤ n := by omega
    simp only [h2, h2', List.length_cons]
    norm_num
    rw [if_pos (by omega : n < rest.length + 1), if_pos (by omega : n - 1 < rest.length)]
    have h3 : n = (n - 1) + 1 := by omega
    rw [h3, List.getElem?_cons_succ]
    have h4 : n - 1 + 1 - 1 = n - 1 := by omega
    rw [h4]

/-- Folding one recorded (sibling, position) pair over the node at `index`
yields exactly the parent node at `index / 2` of the next level: one loop
iteration of `compute_root` undoes one level of the construction. -/
theorem fold_step_sibling_entry [Inhabited α] :
    ∀ (level : List α) (index : Nat), index < level.length →
      fold_step H (level.getD index default) (sibling_entry level index) =
        (next_level H level).getD (index / 2) default
  | [], index, h => by simp at h
  | [a], index, h => by
      have h0 : index = 0 := by
        simp only [List.length_cons, List.length_nil] at h
        omega
      subst h0
      simp [sibling_entry, next_level, fold_step]
  | a :: b :: rest, 0, h => by
      simp [sibling_entry, next_level, fold_step]
  | a :: b :: rest, 1, h => by
      simp [sibling_entry, next_level, fold_step]
  | a :: b :: rest, (n+2), h => by
      have hn : n < rest.length := by
        simp only [List.length_cons] at h
        omega
      rw [sibling_entry_cons_cons a b rest n hn]
      have hd : (a :: b :: rest).getD (n + 2) default = rest.getD n default := by
        simp [List.getD_cons_succ]
      rw [hd]
      have hdiv : (n + 2) / 2 = n / 2 + 1 := by omega
      rw [hdiv]
      simp only [next_level, List.getD_cons_succ]
      exact fold_step_sibling_entry rest n hn

/-- Recomputing upward through the recorded proof steps from any leaf
reproduces the root of the constructed level stack. -/
theorem merkle_root_recompute [Inhabited α] (cur : List α) (index : Nat)
    (h : index < cur.length) :
    (build_levels H cur).getLast?.bind List.head? =
      some (List.foldl (fold_step H) (cur.getD index default)
        (proof_steps ((build_levels H cur).take ((build_levels H cur).length - 1)) index)) := by
  by_cases hle : cur.length ≤ 1
  · have h1 : cur.length = 1 := by omega
    have h0 : index = 0 := by omega
    obtain ⟨a, ha⟩ : ∃ a, cur = [a] := by
      cases cur with
      | nil => simp at h1
      | cons x xs =>
        cases xs with
        | nil => exact ⟨x, rfl⟩
        | cons y ys => simp at h1
    subst ha
    subst h0
    rw [build_levels]
    simp [proof_steps]
  · rw [build_levels, if_neg hle]
    have hne := build_levels_ne_nil H (next_level H cur)
    obtain ⟨L, Ls, hLs⟩ : ∃ L Ls, build_levels H (next_level H cur) = L :: Ls := by
      cases hbl : build_levels H (next_level H cur) with
      | nil => exact absurd hbl hne
      | cons L Ls => exact ⟨L, Ls, rfl⟩
    rw [hLs, List.getLast?_cons_cons]
    have hlen : (cur :: L :: Ls).length - 1 = Ls.length + 1 := by simp
    rw [hlen, List.take_succ_cons]
    simp only [proof_steps, List.foldl_cons]
    rw [fold_step_sibling_entry H cur index h]
    have hidx : index / 2 < (next_level H cur).length := by
      rw [next_level_length]
      omega
    have hrec := merkle_root_recompute (next_level H cur) (index / 2) hidx
    rw [hLs] at hrec
    simpa using hrec
termination_by cur.length
decreasing_by
  rw [next_level_length]
  omega

/-- C1: for every non-empty leaf sequence and every index `i < leafCount`,
`proof(i)` succeeds and `verify_proof(tree, proof)` holds — recomputing from
the leaf digest through the recorded (sibling, position) pairs, hashing
`H(sibling, current)` for a left sibling and `H(current, sibling)` for a
right one, reproduces the tree's root. -/
theorem merkle_proof_roundtrip [Inhabited α] [DecidableEq α]
    (leaves : List α) (i : Nat) (h : i < leaves.length) :
    ∃ p, (MerkleTree.from_leaf_hashes H leaves).proof i = Except.ok p ∧
      MerkleTree.verify_proof H (MerkleTree.from_leaf_hashes H leaves) p = true := by
  have hne : ¬ leaves.isEmpty = true := by
    cases leaves
    · simp at h
    · simp
  unfold MerkleTree.from_leaf_hashes
  rw [if_neg hne]
  unfold MerkleTree.proof
  simp only []
  rw [if_neg (by omega : ¬ i ≥ leaves.length)]
  refine ⟨_, rfl, ?_⟩
  unfold MerkleTree.verify_proof MerkleProof.compute_root MerkleTree.root
  simp only []
  rw [(List.zip_of_prod rfl rfl).symm]
  rw [merkle_root_recompute H leaves i h]
  simp

/-- Witness for C1 at the three-leaf tree over `Nat`, index 2. -/
theorem merkle_proof_roundtrip_witness :
    2 < ([10, 20, 30] : List Nat).length ∧
    ∃ p, (MerkleTree.from_leaf_hashes tHash [10, 20, 30]).proof 2 = Except.ok p ∧
      MerkleTree.verify_proof tHash (MerkleTree.from_leaf_hashes tHash [10, 20, 30]) p = true :=
  ⟨by decide, merkle_proof_roundtrip tHash [10, 20, 30] 2 (by decide)⟩

/-- Prepending a cons to a non-empty list keeps its last element. -/
theorem getLast_cons_of_ne_nil {l : List α} (a : α) (h : l ≠ []) :
    (a :: l).getLast? = l.getLast? := by
  cases l with
  | nil => exact absurd rfl h
  | cons b bs => exact List.getLast?_cons_cons

/-- The parent of an odd trailing node is that node hashed with itself. -/
theorem next_level_getLast_odd :
    ∀ (l : List α) (a : α), l.length % 2 = 1 → l.getLast? = some a →
      (next_level H l).getLast? = some (H a a)
  | [], a, hodd, _ => by simp at hodd
  | [x], a, hodd, hlast => by
      simp only [List.getLast?_singleton, Option.some.injEq] at hlast
      subst hlast
      simp [next_level]
  | x :: y :: rest, a, hodd, hlast => by
      have hro : rest.length % 2 = 1 := by
        simp only [List.length_cons] at hodd
        omega
      have hrne : rest ≠ [] := by
        intro hc
        rw [hc] at hro
        simp at hro
      have hlast2 : rest.getLast? = some a := by
        rw [List.getLast?_cons_cons, getLast_cons_of_ne_nil y hrne] at hlast
        exact hlast
      have hrec := next_level_getLast_odd rest a hro hlast2
      simp only [next_level]
      rw [getLast_cons_of_ne_nil _ (next_level_ne_nil H rest hrne)]
      exact hrec

/-- C3: a level with an odd trailing element hashes that element with itself
to form its parent (`H(last, last)`), never promoting it unpaired; and when
proof generation computes a sibling index outside the current level, the
recorded sibling is the node's own hash, recorded on the right. -/
theorem merkle_odd_duplication [Inhabited α] :
    (∀ (l : List α) (a : α), l.length % 2 = 1 → l.getLast? = some a →
      (next_level H l).getLast? = some (H a a)) ∧
    (∀ (level : List α) (rest : List (List α)) (index : Nat),
      ¬ ((if index % 2 == 0 then index + 1 else index - 1) < level.length) →
      proof_steps (level :: rest) index =
        (level.getD index default, SiblingPosition.right) :: proof_steps rest (index / 2)) := by
  constructor
  · exact next_level_getLast_odd H
  · intro level rest index hcond
    simp only [proof_steps, sibling_entry]
    rw [if_neg hcond]

/-- Witness for C3: the three-leaf level over `Nat`, and the proof step at
the out-of-bounds sibling of index 2. -/
theorem merkle_odd_duplication_witness :
    (next_level tHash [1, 2, 3]).getLast? = some (tHash 3 3) ∧
    proof_steps [[1, 2, 3]] 2 =
      (([1, 2, 3] : List Nat).getD 2 default, SiblingPosition.right) ::
        proof_steps ([] : List (List Nat)) 1 :=
  ⟨(merkle_odd_duplication tHash).1 [1, 2, 3] 3 (by decide) (by decide),
   (merkle_odd_duplication tHash).2 [1, 2, 3] [] 2 (by decide)⟩

/-- The level count of the construction is one more than the ceiling
base-two logarithm of the leaf count. -/
theorem build_levels_length (cur : List α) (h : cur ≠ []) :
    (build_levels H cur).length = Nat.clog 2 cur.length + 1 := by
  by_cases hle : cur.length ≤ 1
  · have h1 : cur.length = 1 := by
      have h0 : cur.length ≠ 0 := fun hc => h (List.length_eq_zero.mp hc)
      omega
    rw [build_levels, if_pos hle]
    simp [h1, Nat.clog_one_right]
  · rw [build_levels, if_neg hle]
    have hlen2 : 2 ≤ cur.length := by omega
    have hnne : next_level H cur ≠ [] :=
      next_level_ne_nil H cur (fun hc => by
        rw [hc] at hle
        simp at hle)
    rw [List.length_cons, build_levels_length (next_level H cur) hnne]
    rw [next_level_length]
    rw [Nat.clog_of_two_le (by norm_num) hlen2]
    norm_num
termination_by cur.length
decreasing_by
  rw [next_level_length]
  omega

/-- C6: a tree built from `leafCount ≥ 1` leaves has height
`ceil(log2(leafCount)) + 1`; a single-leaf tree has height 1 with its leaf
hash as root; the empty tree has no levels and no root. -/
theorem merkle_height_invariant :
    (∀ leaf_hashes : List α, leaf_hashes ≠ [] →
      (MerkleTree.from_leaf_hashes H leaf_hashes).height =
        Nat.clog 2 leaf_hashes.length + 1) ∧
    (∀ a : α, (MerkleTree.from_leaf_hashes H [a]).height = 1 ∧
      (MerkleTree.from_leaf_hashes H [a]).root = some a) ∧
    (MerkleTree.from_leaf_hashes H ([] : List α)).levels = [] ∧
    (MerkleTree.from_leaf_hashes H ([] : List α)).root = none := by
  refine ⟨?_, ?_, ?_, ?_⟩
  · intro leaf_hashes hne
    unfold MerkleTree.from_leaf_hashes
    rw [if_neg (by simpa using hne)]
    unfold MerkleTree.height
    exact build_levels_length H leaf_hashes hne
  · intro a
    unfold MerkleTree.from_leaf_hashes
    rw [if_neg (by simp)]
    unfold MerkleTree.height MerkleTree.root
    rw [build_levels]
    simp
  · simp [MerkleTree.from_leaf_hashes]
  · simp [MerkleTree.from_leaf_hashes, MerkleTree.root]

/-- Witness for C6 at two-, four- and one-leaf trees over `Nat`. -/
theorem merkle_height_invariant_witness :
    ([1, 2] : List Nat) ≠ [] ∧
    (MerkleTree.from_leaf_hashes tHash [1, 2]).height =
      Nat.clog 2 ([1, 2] : List Nat).length + 1 ∧
    ([1, 2, 3, 4] : List Nat) ≠ [] ∧
    (MerkleTree.from_leaf_hashes tHash [1, 2, 3, 4]).height =
      Nat.clog 2 ([1, 2, 3, 4] : List Nat).length + 1 ∧
    (MerkleTree.from_leaf_hashes tHash [(5 : Nat)]).height = 1 ∧
    (MerkleTree.from_leaf_hashes tHash [(5 : Nat)]).root = some 5 :=
  ⟨by decide, (merkle_height_invariant tHash).1 [1, 2] (by decide), by decide,
   (merkle_height_invariant tHash).1 [1, 2, 3, 4] (by decide),
   ((merkle_height_invariant tHash).2.1 5).1, ((merkle_height_invariant tHash).2.1 5).2⟩

/-- C7: `proof(i)` fails with the `MerkleError` variant exactly when
`i ≥ leafCount`, and succeeds for every `i < leafCount`. -/
theorem merkle_proof_out_of_range [Inhabited α] (t : MerkleTree α) (i : Nat) :
    (i ≥ t.leaf_count → ∃ msg, t.proof i = Except.error (MakotoError.MerkleError msg)) ∧
    (i < t.leaf_count → ∃ p, t.proof i = Except.ok p) := by
  unfold MerkleTree.leaf_count
  constructor
  · intro hge
    exact ⟨_, by unfold MerkleTree.proof; rw [if_pos hge]⟩
  · intro hlt
    exact ⟨_, by unfold MerkleTree.proof; rw [if_neg (by omega)]⟩

/-- Witness for C7 on the two-leaf tree over `Nat`: index 5 fails with
`MerkleError`, index 1 succeeds. -/
theorem merkle_proof_out_of_range_witness :
    (5 ≥ (MerkleTree.from_leaf_hashes tHash [1, 2]).leaf_count ∧
      ∃ msg, (MerkleTree.from_leaf_hashes tHash [1, 2]).proof 5 =
        Except.error (MakotoError.MerkleError msg)) ∧
    (1 < (MerkleTree.from_leaf_hashes tHash [1, 2]).leaf_count ∧
      ∃ p, (MerkleTree.from_leaf_hashes tHash [1, 2]).proof 1 = Except.ok p) :=
  ⟨⟨by decide, (merkle_proof_out_of_range (MerkleTree.from_leaf_hashes tHash [1, 2]) 5).1
      (by decide)⟩,
   ⟨by decide, (merkle_proof_out_of_range (MerkleTree.from_leaf_hashes tHash [1, 2]) 1).2
      (by decide)⟩⟩

/-- C10: `compute_root` folds only over the pairwise-zipped prefix of the
siblings and positions lists; truncating both to their common length leaves
the candidate root unchanged, and the computation is total. -/
theorem compute_root_ignores_excess (p : MerkleProof α) :
    MerkleProof.compute_root H p =
      MerkleProof.compute_root H
        { leaf_index := p.leaf_index
          leaf_hash := p.leaf_hash
          siblings := p.siblings.take (min p.siblings.length p.positions.length)
          positions := p.positions.take (min p.siblings.length p.positions.length) } := by
  unfold MerkleProof.compute_root
  simp only []
  congr 1
  rw [List.zip_eq_zipWith, List.zip_eq_zipWith, ← List.take_zipWith]
  rw [List.take_of_length_le]
  rw [List.length_zipWith]

end MerkleTheorems

section SigningTheorems

variable {SigT VKey : Type}
variable (b64decode : String → Option (List Nat))
variable (sigFromSlice : List Nat → Option SigT)
variable (p256verify : VKey → String → SigT → Except String Unit)

/-- The signature loop returns a boolean that is true exactly when the flag
was already set or some entry matches, and every matching entry verifies. -/
theorem verify_loop_spec (v : MakotoVerifier VKey) (paeStr : String)
    (sigs : List AttestationSignature) : ∀ (found : Bool),
    (∀ s ∈ sigs, s.keyid = v.key_id → entry_decodes b64decode sigFromSlice s) →
    ∃ b, verify_signatures_loop b64decode sigFromSlice p256verify v paeStr sigs found =
        Except.ok b ∧
      (b = true ↔ ((found = true ∨ ∃ s ∈ sigs, s.keyid = v.key_id) ∧
        ∀ s ∈ sigs, s.keyid = v.key_id →
          entry_verifies b64decode sigFromSlice p256verify v paeStr s)) := by
  induction sigs with
  | nil =>
      intro found hdec
      exact ⟨found, rfl, by simp⟩
  | cons s rest ih =>
      intro found hdec
      by_cases hk : s.keyid = v.key_id
      · obtain ⟨bytes, sg, hb, hs⟩ := hdec s (List.mem_cons_self s rest) hk
        simp only [verify_signatures_loop]
        rw [if_pos (by simpa using hk)]
        simp only [hb, hs]
        unfold MakotoVerifier.verify
        cases hp : p256verify v.verifying_key paeStr sg with
        | ok u =>
          cases u
          have hsv : entry_verifies b64decode sigFromSlice p256verify v paeStr s :=
            ⟨bytes, sg, hb, hs, hp⟩
          obtain ⟨b, hloop, hiff⟩ :=
            ih true (fun x hx hk2 => hdec x (List.mem_cons_of_mem s hx) hk2)
          refine ⟨b, by simpa using hloop, ?_⟩
          rw [hiff]
          constructor
          · rintro ⟨-, hall⟩
            refine ⟨Or.inr ⟨s, List.mem_cons_self s rest, hk⟩, ?_⟩
            intro x hx hkx
            rcases List.mem_cons.mp hx with rfl | hx2
            · exact hsv
            · exact hall x hx2 hkx
          · rintro ⟨-, hall⟩
            exact ⟨Or.inl rfl, fun x hx hkx => hall x (List.mem_cons_of_mem s hx) hkx⟩
        | error err =>
          refine ⟨false, by simp, ?_⟩
          constructor
          · intro hc
            exact absurd hc (by simp)
          · rintro ⟨-, hall⟩
            obtain ⟨bytes2, sg2, hb2, hs2, hp2⟩ := hall s (List.mem_cons_self s rest) hk
            rw [hb] at hb2
            cases hb2
            rw [hs] at hs2
            cases hs2
            rw [hp] at hp2
            cases hp2
      · simp only [verify_signatures_loop]
        rw [if_neg (by simpa using hk)]
        obtain ⟨b, hloop, hiff⟩ :=
          ih found (fun x hx hk2 => hdec x (List.mem_cons_of_mem s hx) hk2)
        refine ⟨b, hloop, ?_⟩
        rw [hiff]
        constructor
        · rintro ⟨hor, hall⟩
          refine ⟨?_, ?_⟩
          · rcases hor with hf | ⟨x, hx, hkx⟩
            · exact Or.inl hf
            · exact Or.inr ⟨x, List.mem_cons_of_mem s hx, hkx⟩
          · intro x hx hkx
            rcases List.mem_cons.mp hx with rfl | hx2
            · exact absurd hkx hk
            · exact hall x hx2 hkx
        · rintro ⟨hor, hall⟩
          refine ⟨?_, fun x hx hkx => hall x (List.mem_cons_of_mem s hx) hkx⟩
          rcases hor with hf | ⟨x, hx, hkx⟩
          · exact Or.inl hf
          · rcases List.mem_cons.mp hx with rfl | hx2
            · exact absurd hkx hk
            · exact Or.inr ⟨x, hx2, hkx⟩

/-- C2: envelope verification rebuilds the PAE from the envelope's own
`payloadType` and `payload`, scans `signatures` for entries whose `keyId`
equals the verifier's, returns false when none match, and when matches exist
returns true exactly when every matching entry verifies over the PAE bytes
(assuming matching entries decode, so the call stays on the boolean path). -/
theorem envelope_verify_spec (env : SignedAttestation) (v : MakotoVerifier VKey)
    (hdec : ∀ s ∈ env.signatures, s.keyid = v.key_id →
      entry_decodes b64decode sigFromSlice s) :
    ∃ b, SignedAttestation.verify b64decode sigFromSlice p256verify env v = Except.ok b ∧
      (b = true ↔ ((∃ s ∈ env.signatures, s.keyid = v.key_id) ∧
        ∀ s ∈ env.signatures, s.keyid = v.key_id →
          entry_verifies b64decode sigFromSlice p256verify v
            (pae env.payload_type env.payload) s)) := by
  obtain ⟨b, hloop, hiff⟩ :=
    verify_loop_spec b64decode sigFromSlice p256verify v
      (pae env.payload_type env.payload) env.signatures false hdec
  refine ⟨b, hloop, ?_⟩
  rw [hiff]
  simp

/-- An error escaping the signature loop is a `Signature` error caused by a
matching entry whose base64 or byte format failed to parse. -/
theorem verify_loop_error (v : MakotoVerifier VKey) (paeStr : String)
    (sigs : List AttestationSignature) : ∀ (found : Bool) (e : MakotoError),
    verify_signatures_loop b64decode sigFromSlice p256verify v paeStr sigs found =
      Except.error e →
    (∃ msg, e = MakotoError.Signature msg) ∧
    ∃ s ∈ sigs, s.keyid = v.key_id ∧
      (b64decode s.sig = none ∨
        ∃ bytes, b64decode s.sig = some bytes ∧ sigFromSlice bytes = none) := by
  induction sigs with
  | nil =>
      intro found e h
      exact absurd h (by simp [verify_signatures_loop])
  | cons s rest ih =>
      intro found e h
      by_cases hk : s.keyid = v.key_id
      · rw [verify_signatures_loop, if_pos (by simpa using hk)] at h
        cases hb : b64decode s.sig with
        | none =>
            rw [hb] at h
            simp only [Except.error.injEq] at h
            exact ⟨⟨"Invalid signature base64", h.symm⟩,
              s, List.mem_cons_self s rest, hk, Or.inl hb⟩
        | some bytes =>
            rw [hb] at h
            simp only [] at h
            cases hs : sigFromSlice bytes with
            | none =>
                rw [hs] at h
                simp only [Except.error.injEq] at h
                exact ⟨⟨"Invalid signature format", h.symm⟩,
                  s, List.mem_cons_self s rest, hk, Or.inr ⟨bytes, hb, hs⟩⟩
            | some sg =>
                rw [hs] at h
                simp only [] at h
                unfold MakotoVerifier.verify at h
                cases hp : p256verify v.verifying_key paeStr sg with
                | ok u =>
                    cases u
                    rw [hp] at h
                    simp only [if_true] at h
                    obtain ⟨hmsg, x, hx, hrest⟩ := ih true e (by simpa using h)
                    exact ⟨hmsg, x, List.mem_cons_of_mem s hx, hrest⟩
                | error err =>
                    rw [hp] at h
                    simp at h
      · rw [verify_signatures_loop, if_neg (by simpa using hk)] at h
        obtain ⟨hmsg, x, hx, hrest⟩ := ih found e h
        exact ⟨hmsg, x, List.mem_cons_of_mem s hx, hrest⟩

/-- C4: `Verifier.verify` on a parsed signature never raises — it returns a
boolean that is true exactly when the raw p256 check accepts; and any error
raised during envelope verification is a `Signature` error caused by a
matching entry with malformed base64 or malformed signature bytes. -/
theorem verifier_verify_total (v : MakotoVerifier VKey) :
    (∀ (data : String) (s : SigT), ∃ b,
      MakotoVerifier.verify p256verify v data s = Except.ok b ∧
        (b = true ↔ p256verify v.verifying_key data s = Except.ok ())) ∧
    (∀ (env : SignedAttestation) (e : MakotoError),
      SignedAttestation.verify b64decode sigFromSlice p256verify env v = Except.error e →
      (∃ msg, e = MakotoError.Signature msg) ∧
      ∃ s ∈ env.signatures, s.keyid = v.key_id ∧
        (b64decode s.sig = none ∨
          ∃ bytes, b64decode s.sig = some bytes ∧ sigFromSlice bytes = none)) := by
  constructor
  · intro data s
    unfold MakotoVerifier.verify
    cases hp : p256verify v.verifying_key data s with
    | ok u =>
        cases u
        exact ⟨true, rfl, by simp⟩
    | error err =>
        refine ⟨false, rfl, by simp⟩
  · intro env e h
    exact verify_loop_error b64decode sigFromSlice p256verify v
      (pae env.payload_type env.payload) env.signatures false e h

end SigningTheorems

/-- Witness for C2: a one-signature envelope over concrete primitives. -/
theorem envelope_verify_spec_witness :
    (∀ s ∈ (SignedAttestation.mk "t" "p" [⟨"k", "x"⟩]).signatures,
      s.keyid = (MakotoVerifier.mk () "k").key_id → entry_decodes tB64 tSigParse s) ∧
    ∃ b, SignedAttestation.verify tB64 tSigParse tP256ok ⟨"t", "p", [⟨"k", "x"⟩]⟩ ⟨(), "k"⟩ =
        Except.ok b ∧
      (b = true ↔
        ((∃ s ∈ (SignedAttestation.mk "t" "p" [⟨"k", "x"⟩]).signatures,
            s.keyid = (MakotoVerifier.mk () "k").key_id) ∧
          ∀ s ∈ (SignedAttestation.mk "t" "p" [⟨"k", "x"⟩]).signatures,
            s.keyid = (MakotoVerifier.mk () "k").key_id →
            entry_verifies tB64 tSigParse tP256ok ⟨(), "k"⟩ (pae "t" "p") s)) :=
  ⟨fun s _ _ => ⟨[s.sig.length], (), rfl, rfl⟩,
   envelope_verify_spec tB64 tSigParse tP256ok ⟨"t", "p", [⟨"k", "x"⟩]⟩ ⟨(), "k"⟩
     (fun s _ _ => ⟨[s.sig.length], (), rfl, rfl⟩)⟩

/-- Witness for C4: the always-accepting verifier never errors, and a
failing base64 decode surfaces as a `Signature` error. -/
theorem verifier_verify_total_witness :
    (∃ b, MakotoVerifier.verify tP256ok (⟨(), "k"⟩ : MakotoVerifier Unit) "d" () =
        Except.ok b ∧ (b = true ↔ tP256ok () "d" () = Except.ok ())) ∧
    ((∃ msg, MakotoError.Signature "Invalid signature base64" = MakotoError.Signature msg) ∧
      ∃ s ∈ (SignedAttestation.mk "t" "p" [⟨"k", "x"⟩]).signatures,
        s.keyid = (MakotoVerifier.mk () "k").key_id ∧
        (tB64fail s.sig = none ∨
          ∃ bytes, tB64fail s.sig = some bytes ∧ tSigParse bytes = none)) :=
  ⟨(verifier_verify_total tB64fail tSigParse tP256ok ⟨(), "k"⟩).1 "d" (),
   (verifier_verify_total tB64fail tSigParse tP256ok ⟨(), "k"⟩).2 ⟨"t", "p", [⟨"k", "x"⟩]⟩
     (MakotoError.Signature "Invalid signature base64") (by rfl)⟩

section KeyTheorems

variable {SKey VKey : Type}
variable (skVerifyingKey : SKey → VKey)
variable (toEncodedPointUncompressed : VKey → List Nat)
variable (sha256hexBytes : List Nat → String)
variable (skFromSlice : List Nat → Option SKey)
variable (skToBytes : SKey → List Nat)
variable (vkFromSec1 : List Nat → Option VKey)

/-- C9: the key identifier is the first 16 characters of the hex SHA-256
digest of the uncompressed public-key point, hence a pure function of the
public key; a verifier built from the signer's exported public-key bytes
carries the same identifier; and exporting then re-importing the private key
bytes reproduces the signer, key identifier included.  The parsing
hypotheses state that the external p256 parsers invert the exporters. -/
theorem key_id_derivation_roundtrip :
    (∀ sk : SKey,
      (signer_of_key skVerifyingKey toEncodedPointUncompressed sha256hexBytes sk).key_id =
        (sha256hexBytes (toEncodedPointUncompressed (skVerifyingKey sk))).take 16) ∧
    (∀ sk sk2 : SKey, skVerifyingKey sk = skVerifyingKey sk2 →
      (signer_of_key skVerifyingKey toEncodedPointUncompressed sha256hexBytes sk).key_id =
        (signer_of_key skVerifyingKey toEncodedPointUncompressed sha256hexBytes sk2).key_id) ∧
    (∀ sk : SKey,
      vkFromSec1 (toEncodedPointUncompressed (skVerifyingKey sk)) = some (skVerifyingKey sk) →
      MakotoVerifier.from_bytes toEncodedPointUncompressed sha256hexBytes vkFromSec1
        (MakotoSigner.public_key_bytes skVerifyingKey toEncodedPointUncompressed
          (signer_of_key skVerifyingKey toEncodedPointUncompressed sha256hexBytes sk)) =
        Except.ok (MakotoSigner.get_verifier skVerifyingKey
          (signer_of_key skVerifyingKey toEncodedPointUncompressed sha256hexBytes sk))) ∧
    (∀ sk : SKey, skFromSlice (skToBytes sk) = some sk →
      MakotoSigner.from_bytes skVerifyingKey toEncodedPointUncompressed sha256hexBytes
        skFromSlice
        (MakotoSigner.to_bytes skToBytes
          (signer_of_key skVerifyingKey toEncodedPointUncompressed sha256hexBytes sk)) =
        Except.ok (signer_of_key skVerifyingKey toEncodedPointUncompressed sha256hexBytes sk)) := by
  refine ⟨?_, ?_, ?_, ?_⟩
  · intro sk
    simp only [signer_of_key, compute_key_id]
  · intro sk sk2 h
    simp only [signer_of_key, compute_key_id]
    rw [h]
  · intro sk h
    simp only [MakotoVerifier.from_bytes, MakotoSigner.public_key_bytes, signer_of_key,
      MakotoSigner.get_verifier, compute_key_id, h]
  · intro sk h
    simp only [MakotoSigner.from_bytes, MakotoSigner.to_bytes, signer_of_key,
      compute_key_id, h]

end KeyTheorems

/-- Witness for C9 over concrete `Nat` key material. -/
theorem key_id_derivation_roundtrip_witness :
    ((signer_of_key tSkVk tPoint tShaHex 7).key_id = (tShaHex (tPoint (tSkVk 7))).take 16) ∧
    (tSkVk 7 = tSkVk 7 ∧
      (signer_of_key tSkVk tPoint tShaHex 7).key_id =
        (signer_of_key tSkVk tPoint tShaHex 7).key_id) ∧
    (tParse (tPoint (tSkVk 7)) = some (tSkVk 7) ∧
      MakotoVerifier.from_bytes tPoint tShaHex tParse
        (MakotoSigner.public_key_bytes tSkVk tPoint (signer_of_key tSkVk tPoint tShaHex 7)) =
        Except.ok (MakotoSigner.get_verifier tSkVk (signer_of_key tSkVk tPoint tShaHex 7))) ∧
    (tParse (tPoint 7) = some 7 ∧
      MakotoSigner.from_bytes tSkVk tPoint tShaHex tParse
        (MakotoSigner.to_bytes tPoint (signer_of_key tSkVk tPoint tShaHex 7)) =
        Except.ok (signer_of_key tSkVk tPoint tShaHex 7)) :=
  ⟨(key_id_derivation_roundtrip tSkVk tPoint tShaHex tParse tPoint tParse).1 7,
   ⟨rfl, (key_id_derivation_roundtrip tSkVk tPoint tShaHex tParse tPoint tParse).2.1 7 7 rfl⟩,
   ⟨rfl, (key_id_derivation_roundtrip tSkVk tPoint tShaHex tParse tPoint tParse).2.2.1 7 rfl⟩,
   ⟨rfl, (key_id_derivation_roundtrip tSkVk tPoint tShaHex tParse tPoint tParse).2.2.2 7 rfl⟩⟩

section StructuralTheorems

/-- The subject-digest scan passes exactly when every digest is 64 long. -/
theorem first_bad_subject_eq_none (l : List Subject) :
    first_bad_subject l = none ↔ ∀ s ∈ l, s.digest.sha256.length = 64 := by
  induction l with
  | nil => simp [first_bad_subject]
  | cons s rest ih =>
      unfold first_bad_subject
      by_cases hs : s.digest.sha256.length = 64
      · rw [if_neg (by omega), ih]
        simp [List.forall_mem_cons, hs]
      · rw [if_pos hs]
        simp [List.forall_mem_cons, hs]

/-- The input-digest scan passes exactly when every digest is 64 long. -/
theorem first_bad_input_eq_none (l : List InputReference) :
    first_bad_input l = none ↔ ∀ i ∈ l, i.digest.sha256.length = 64 := by
  induction l with
  | nil => simp [first_bad_input]
  | cons i rest ih =>
      unfold first_bad_input
      by_cases hi : i.digest.sha256.length = 64
      · rw [if_neg (by omega), ih]
        simp [List.forall_mem_cons, hi]
      · rw [if_pos hi]
        simp [List.forall_mem_cons, hi]

/-- C5: origin and transform structural verification fail whenever any
subject (or transform input) carries a primary sha256 string whose length is
not 64, and a passing check forces every such digest to be exactly 64
characters. -/
theorem digest_length_structural (a : OriginAttestation) (t : TransformAttestation) :
    ((∃ s ∈ a.subject, s.digest.sha256.length ≠ 64) →
      (verify_origin_structure a).valid = false) ∧
    ((verify_origin_structure a).valid = true →
      ∀ s ∈ a.subject, s.digest.sha256.length = 64) ∧
    ((∃ i ∈ t.predicate.inputs, i.digest.sha256.length ≠ 64) →
      (verify_transform_structure t).valid = false) ∧
    ((verify_transform_structure t).valid = true →
      (∀ i ∈ t.predicate.inputs, i.digest.sha256.length = 64) ∧
      ∀ s ∈ t.subject, s.digest.sha256.length = 64) := by
  have h2 : (verify_origin_structure a).valid = true →
      ∀ s ∈ a.subject, s.digest.sha256.length = 64 := by
    intro hvalid
    unfold verify_origin_structure at hvalid
    split at hvalid
    · exact absurd hvalid (by simp [VerificationResult.fail])
    · split at hvalid
      · exact absurd hvalid (by simp [VerificationResult.fail])
      · split at hvalid
        · exact absurd hvalid (by simp [VerificationResult.fail])
        · split at hvalid
          · exact absurd hvalid (by simp [VerificationResult.fail])
          · rename_i heq
            exact (first_bad_subject_eq_none a.subject).mp heq
  have h4 : (verify_transform_structure t).valid = true →
      (∀ i ∈ t.predicate.inputs, i.digest.sha256.length = 64) ∧
      ∀ s ∈ t.subject, s.digest.sha256.length = 64 := by
    intro hvalid
    unfold verify_transform_structure at hvalid
    split at hvalid
    · exact absurd hvalid (by simp [VerificationResult.fail])
    · split at hvalid
      · exact absurd hvalid (by simp [VerificationResult.fail])
      · split at hvalid
        · exact absurd hvalid (by simp [VerificationResult.fail])
        · split at hvalid
          · exact absurd hvalid (by simp [VerificationResult.fail])
          · rename_i heqi
            split at hvalid
            · exact absurd hvalid (by simp [VerificationResult.fail])
            · rename_i heqs
              exact ⟨(first_bad_input_eq_none t.predicate.inputs).mp heqi,
                (first_bad_subject_eq_none t.subject).mp heqs⟩
  refine ⟨?_, h2, ?_, h4⟩
  · rintro ⟨s, hs, hbad⟩
    cases hv : (verify_origin_structure a).valid
    · rfl
    · exact absurd (h2 hv s hs) hbad
  · rintro ⟨i, hi, hbad⟩
    cases hv : (verify_transform_structure t).valid
    · rfl
    · exact absurd ((h4 hv).1 i hi) hbad

/-- Under a passing `validate`, stream-window structural verification passes
exactly when the Merkle root string is 64 characters long, the leaf count is
non-zero, and any complete chain back-reference carries a 64-character
previous root and a non-empty previous window id. -/
theorem stream_window_valid_iff (a : StreamWindowAttestation)
    (hval : a.validate = Except.ok ()) :
    (verify_stream_window_structure a).valid = true ↔
      (a.predicate.integrity.merkle_tree.root.length = 64 ∧
       a.predicate.integrity.merkle_tree.leaf_count ≠ 0 ∧
       ∀ chain prev_id prev_root,
         a.predicate.integrity.chain = some chain →
         chain.previous_window_id = some prev_id →
         chain.previous_merkle_root = some prev_root →
         prev_root.length = 64 ∧ prev_id ≠ "") := by
  unfold verify_stream_window_structure
  simp only [hval]
  by_cases h1 : a.predicate.integrity.merkle_tree.root.length = 64
  · rw [if_neg (by omega)]
    by_cases h2 : a.predicate.integrity.merkle_tree.leaf_count = 0
    · rw [if_pos h2]
      simp [VerificationResult.fail, h2]
    · rw [if_neg h2]
      cases hc : a.predicate.integrity.chain with
      | none =>
          constructor
          · intro _
            refine ⟨h1, h2, ?_⟩
            intro chain prev_id prev_root hchain
            cases hchain
          · intro _
            simp [VerificationResult.pass, VerificationResult.with_message]
      | some chain =>
          cases hid : chain.previous_window_id with
          | none =>
              constructor
              · intro _
                refine ⟨h1, h2, ?_⟩
                intro chain2 prev_id prev_root hchain hpid
                cases hchain
                rw [hid] at hpid
                cases hpid
              · intro _
                simp [hid, VerificationResult.pass, VerificationResult.with_message]
          | some prev_id =>
              cases hroot : chain.previous_merkle_root with
              | none =>
                  constructor
                  · intro _
                    refine ⟨h1, h2, ?_⟩
                    intro chain2 prev_id2 prev_root hchain _ hpr
                    cases hchain
                    rw [hroot] at hpr
                    cases hpr
                  · intro _
                    simp [hid, hroot, VerificationResult.pass, VerificationResult.with_message]
              | some prev_root =>
                  simp only [hid, hroot]
                  by_cases h3 : prev_root.length = 64
                  · rw [if_neg (by omega)]
                    by_cases h4 : prev_id.isEmpty = true
                    · rw [if_pos h4]
                      constructor
                      · intro hcon
                        exact absurd hcon (by simp [VerificationResult.fail])
                      · rintro ⟨-, -, hall⟩
                        have hne := (hall chain prev_id prev_root rfl hid hroot).2
                        exact absurd ((String.isEmpty_iff prev_id).mp h4) hne
                    · rw [if_neg h4]
                      constructor
                      · intro _
                        refine ⟨h1, h2, ?_⟩
                        intro chain2 prev_id2 prev_root2 hchain hpid hpr
                        cases hchain
                        rw [hid] at hpid
                        cases hpid
                        rw [hroot] at hpr
                        cases hpr
                        refine ⟨h3, ?_⟩
                        intro he
                        rw [he] at h4
                        exact h4 rfl
                      · intro _
                        simp [VerificationResult.pass, VerificationResult.with_message]
                  · rw [if_pos h3]
                    constructor
                    · intro hcon
                      exact absurd hcon (by simp [VerificationResult.fail])
                    · rintro ⟨-, -, hall⟩
                      exact absurd (hall chain prev_id prev_root rfl hid hroot).1 h3
  · rw [if_pos h1]
    constructor
    · intro hcon
      exact absurd hcon (by simp [VerificationResult.fail])
    · rintro ⟨hr, -, -⟩
      exact absurd hr h1

/-- C8: stream-window structural verification fails unless the Merkle root
string has exactly 64 characters and the leaf count is non-zero, and a
complete chain back-reference must carry a 64-character previous root and a
non-empty previous window identifier; for attestations passing `validate`,
any violation of these conditions (and nothing else) produces a failing
result. -/
theorem stream_window_structural (a : StreamWindowAttestation) :
    ((verify_stream_window_structure a).valid = true →
      (a.predicate.integrity.merkle_tree.root.length = 64 ∧
       a.predicate.integrity.merkle_tree.leaf_count ≠ 0 ∧
       ∀ chain prev_id prev_root,
         a.predicate.integrity.chain = some chain →
         chain.previous_window_id = some prev_id →
         chain.previous_merkle_root = some prev_root →
         prev_root.length = 64 ∧ prev_id ≠ "")) ∧
    (a.validate = Except.ok () →
      ((verify_stream_window_structure a).valid = true ↔
        (a.predicate.integrity.merkle_tree.root.length = 64 ∧
         a.predicate.integrity.merkle_tree.leaf_count ≠ 0 ∧
         ∀ chain prev_id prev_root,
           a.predicate.integrity.chain = some chain →
           chain.previous_window_id = some prev_id →
           chain.previous_merkle_root = some prev_root →
           prev_root.length = 64 ∧ prev_id ≠ ""))) := by
  constructor
  · intro hv
    cases hval : a.validate with
    | error e =>
        exfalso
        unfold verify_stream_window_structure at hv
        rw [hval] at hv
        simp [VerificationResult.fail] at hv
    | ok u =>
        cases u
        exact (stream_window_valid_iff a hval).mp hv
  · intro hval
    exact stream_window_valid_iff a hval

/-- Witness for C5 on concrete good and bad attestations. -/
theorem digest_length_structural_witness :
    ((∃ s ∈ tOriginBad.subject, s.digest.sha256.length ≠ 64) ∧
      (verify_origin_structure tOriginBad).valid = false) ∧
    ((verify_origin_structure tOriginGood).valid = true ∧
      ∀ s ∈ tOriginGood.subject, s.digest.sha256.length = 64) ∧
    ((∃ i ∈ tTransformBad.predicate.inputs, i.digest.sha256.length ≠ 64) ∧
      (verify_transform_structure tTransformBad).valid = false) ∧
    ((verify_transform_structure tTransformGood).valid = true ∧
      (∀ i ∈ tTransformGood.predicate.inputs, i.digest.sha256.length = 64) ∧
      ∀ s ∈ tTransformGood.subject, s.digest.sha256.length = 64) :=
  ⟨⟨by decide, (digest_length_structural tOriginBad tTransformBad).1 (by decide)⟩,
   ⟨by decide, (digest_length_structural tOriginGood tTransformGood).2.1 (by decide)⟩,
   ⟨by decide, (digest_length_structural tOriginBad tTransformBad).2.2.1 (by decide)⟩,
   ⟨by decide, (digest_length_structural tOriginGood tTransformGood).2.2.2 (by decide)⟩⟩

/-- Witness for C8 on a concrete chained stream-window attestation. -/
theorem stream_window_structural_witness :
    ((verify_stream_window_structure tStreamGood).valid = true ∧
      (tStreamGood.predicate.integrity.merkle_tree.root.length = 64 ∧
       tStreamGood.predicate.integrity.merkle_tree.leaf_count ≠ 0 ∧
       ∀ chain prev_id prev_root,
         tStreamGood.predicate.integrity.chain = some chain →
         chain.previous_window_id = some prev_id →
         chain.previous_merkle_root = some prev_root →
         prev_root.length = 64 ∧ prev_id ≠ "")) ∧
    (tStreamGood.validate = Except.ok () ∧
      ((verify_stream_window_structure tStreamGood).valid = true ↔
        (tStreamGood.predicate.integrity.merkle_tree.root.length = 64 ∧
         tStreamGood.predicate.integrity.merkle_tree.leaf_count ≠ 0 ∧
         ∀ chain prev_id prev_root,
           tStreamGood.predicate.integrity.chain = some chain →
           chain.previous_window_id = some prev_id →
           chain.previous_merkle_root = some prev_root →
           prev_root.length = 64 ∧ prev_id ≠ ""))) :=
  ⟨⟨by decide, (stream_window_structural tStreamGood).1 (by decide)⟩,
   ⟨rfl, (stream_window_structural tStreamGood).2 rfl⟩⟩

end StructuralTheorems

end Makoto
